import Mathlib

/-!
# Verification of the Base-Rush endless-runner simulation core

A shallow embedding of `src/game/GameEngine.ts` (the per-tick
update/spawn/collision/scoring loop) together with proofs of the testable
properties stated in the specification.

Modelling conventions:
* JavaScript `number` values carried by the simulation are modelled as `ℚ`
  (the engine only performs `+ - * /`, `Math.floor`, `Math.min`, `Math.max`
  and comparisons on them).
* `Math.random()`-based identifiers are modelled as a monotonic counter
  (`nextId`), as the spec's design notes explicitly allow; the single
  `Math.random()` roll that picks an obstacle size class is threaded into
  each tick as an explicit input.
* Purely presentational state (coin effects, speed lines, screen shake,
  sprite animation, rendering) is outside every claim's scope and is omitted;
  none of it feeds back into the simulation fields modelled here.
* The browser scheduling primitives (`requestAnimationFrame`) are out of
  scope; a *tick* is one call of `GameEngine.update(deltaTime)`.
* Event callbacks are absent in the pure model; a second model
  (`updateWithEvents`) threads possibly-throwing callbacks through an
  exception monad, mirroring the call sites of
  `GameEngine.checkCollisions`/`GameEngine.gameOver`, which have no
  `try`/`catch`.
-/

namespace BaseRush

/-- JavaScript `Math.min` on two (non-NaN) numbers. -/
def jsMin (a b : ℚ) : ℚ := if a ≤ b then a else b

/-- JavaScript `Math.max` on two (non-NaN) numbers. -/
def jsMax (a b : ℚ) : ℚ := if a ≤ b then b else a

/-- `GameEngine.ts` lines 16-24: the player entity. -/
structure Player where
  x : ℚ
  y : ℚ
  width : ℚ
  height : ℚ
  velocityY : ℚ
  isJumping : Bool
  groundY : ℚ
  deriving DecidableEq, Repr

/-- `GameEngine.ts` lines 26-32: an obstacle (id modelled as a counter value). -/
structure Obstacle where
  x : ℚ
  y : ℚ
  width : ℚ
  height : ℚ
  id : Nat
  deriving DecidableEq, Repr

/-- `GameEngine.ts` lines 34-41: a coin. -/
structure Coin where
  x : ℚ
  y : ℚ
  width : ℚ
  height : ℚ
  id : Nat
  collected : Bool
  deriving DecidableEq, Repr

/-- `types/index.ts` `GameConfig` (all six recognized numeric options). -/
structure GameConfig where
  initialSpeed : ℚ
  speedIncrement : ℚ
  obstacleSpawnRate : ℚ
  coinSpawnRate : ℚ
  gravity : ℚ
  jumpVelocity : ℚ
  deriving DecidableEq, Repr

/-- The run-state snapshot held in `GameEngine.state` and returned by
`getState()` (the engine stores `speed` in it as well; `score` is always an
integer since it is assigned from `Math.floor(..) + coins * 10`). -/
structure GameState where
  isPlaying : Bool
  isPaused : Bool
  isGameOver : Bool
  score : ℤ
  coins : ℕ
  distance : ℚ
  speed : ℚ
  deriving DecidableEq, Repr

/-- The simulation-relevant private fields of the `GameEngine` class
(`GameEngine.ts` lines 62-109), plus the canvas width in CSS pixels
(`canvas.width / devicePixelRatio`, used as the spawn x of new entities)
and the monotonic id counter standing in for random id generation. -/
structure Engine where
  config : GameConfig
  state : GameState
  player : Player
  obstacles : List Obstacle
  coins : List Coin
  gameSpeed : ℚ
  obstacleSpawnTimer : ℕ
  coinSpawnTimer : ℕ
  elapsedTimeMs : ℚ
  obstacleDistanceSinceLast : ℚ
  jumpHoldActive : Bool
  jumpHoldTime : ℚ
  nextId : Nat
  canvasWidth : ℚ
  deriving DecidableEq, Repr

/-- `GameEngine.maxJumpHoldMs` (line 109): constant 180. -/
def maxJumpHoldMs : ℚ := 180

/-- Default game configuration, constructor lines 121-129. -/
def defaultConfig : GameConfig where
  initialSpeed := 2.4
  speedIncrement := 0.001
  obstacleSpawnRate := 120
  coinSpawnRate := 60
  gravity := 0.65
  jumpVelocity := -13.5

/-- The engine right after construction (lines 111-193): state idle,
player standing at `groundY = canvasHeight - 100`, empty entity lists. -/
def mkEngine (cfg : GameConfig) (canvasWidth canvasHeight : ℚ) : Engine :=
  let groundY := canvasHeight - 100
  { config := cfg
    state :=
      { isPlaying := false, isPaused := false, isGameOver := false
        score := 0, coins := 0, distance := 0, speed := cfg.initialSpeed }
    player :=
      { x := 100, y := groundY, width := 40, height := 60
        velocityY := 0, isJumping := false, groundY := groundY }
    obstacles := []
    coins := []
    gameSpeed := cfg.initialSpeed
    obstacleSpawnTimer := 0
    coinSpawnTimer := 0
    elapsedTimeMs := 0
    obstacleDistanceSinceLast := 0
    jumpHoldActive := false
    jumpHoldTime := 0
    nextId := 0
    canvasWidth := canvasWidth }

/-- `GameEngine.start()` lines 244-280 (loop scheduling out of scope):
no-op when already playing, otherwise resets state, entities and timers. -/
def start (e : Engine) : Engine :=
  if e.state.isPlaying then e
  else
    { e with
      state :=
        { isPlaying := true, isPaused := false, isGameOver := false
          score := 0, coins := 0, distance := 0, speed := e.config.initialSpeed }
      obstacles := []
      coins := []
      player :=
        { e.player with y := e.player.groundY, velocityY := 0, isJumping := false }
      gameSpeed := e.config.initialSpeed
      obstacleSpawnTimer := 0
      coinSpawnTimer := 0
      elapsedTimeMs := 0
      obstacleDistanceSinceLast := 0
      jumpHoldActive := false
      jumpHoldTime := 0 }

/-- `GameEngine.togglePause()` lines 285-293 (clock re-arm out of scope). -/
def togglePause (e : Engine) : Engine :=
  if !e.state.isPlaying || e.state.isGameOver then e
  else { e with state := { e.state with isPaused := !e.state.isPaused } }

/-- `GameEngine.jump()` lines 298-306. -/
def jump (e : Engine) : Engine :=
  if !e.state.isPlaying || e.state.isPaused || e.state.isGameOver then e
  else if e.player.isJumping then e
  else
    { e with
      player := { e.player with velocityY := e.config.jumpVelocity, isJumping := true }
      jumpHoldActive := true
      jumpHoldTime := 0 }

/-- `GameEngine.releaseJump()` lines 308-310. -/
def releaseJump (e : Engine) : Engine := { e with jumpHoldActive := false }

/-- The hold test of `updatePlayer` line 402. -/
def holdingJump (e : Engine) : Bool :=
  e.player.isJumping && e.jumpHoldActive && decide (e.jumpHoldTime < maxJumpHoldMs)

/-- The gravity applied this tick, `updatePlayer` line 403
(0.35-scaled while the jump is held). -/
def gravityStep (e : Engine) : ℚ :=
  if holdingJump e then e.config.gravity * 0.35 else e.config.gravity

/-- `GameEngine.updatePlayer(deltaTime)` lines 400-420: gravity, position
integration and the ground clamp. -/
def updatePlayer (e : Engine) (deltaTime : ℚ) : Engine :=
  let v := e.player.velocityY + gravityStep e
  let hold := if holdingJump e then e.jumpHoldTime + deltaTime else e.jumpHoldTime
  let y := e.player.y + v
  if e.player.groundY ≤ y then
    { e with
      player := { e.player with y := e.player.groundY, velocityY := 0, isJumping := false }
      jumpHoldActive := false
      jumpHoldTime := 0 }
  else
    { e with
      player := { e.player with y := y, velocityY := v }
      jumpHoldTime := hold }

/-- `GameEngine.spawnObstacle()` lines 467-490: size class picked from one
random roll (55% / 30% / 15%), spawned at the right edge on the ground. -/
def spawnObstacle (e : Engine) (roll : ℚ) : Engine :=
  let wh : ℚ × ℚ :=
    if roll < 0.55 then (28, 45)
    else if roll < 0.85 then (36, 55)
    else (44, 40)
  { e with
    obstacles := e.obstacles ++
      [{ x := e.canvasWidth, y := e.player.groundY
         width := wh.1, height := wh.2, id := e.nextId }]
    nextId := e.nextId + 1 }

/-- `GameEngine.spawnCoin()` lines 492-502: coin at the right edge,
80 units above the ground, 25×25. -/
def spawnCoin (e : Engine) : Engine :=
  { e with
    coins := e.coins ++
      [{ x := e.canvasWidth, y := e.player.groundY - 80
         width := 25, height := 25, id := e.nextId, collected := false }]
    nextId := e.nextId + 1 }

/-- The phased target gap of `updateSpawning` lines 423-445 (a function of
elapsed time since the grace period). -/
def targetGap (elapsedTimeMs : ℚ) : ℚ :=
  let gracePeriodMs : ℚ := 2600
  let earlyRampMs : ℚ := 14000
  let midRampMs : ℚ := 42000
  let gapEarly : ℚ := 520
  let gapMid : ℚ := 380
  let gapLate : ℚ := 300
  let gapFloor : ℚ := 260
  let lerp : ℚ → ℚ → ℚ → ℚ := fun a b t => a + (b - a) * t
  let clamp01 : ℚ → ℚ := fun v => jsMin 1 (jsMax 0 v)
  let timeSinceGrace := jsMax 0 (elapsedTimeMs - gracePeriodMs)
  if timeSinceGrace ≤ earlyRampMs then
    lerp gapEarly gapMid (clamp01 (timeSinceGrace / earlyRampMs))
  else if timeSinceGrace ≤ midRampMs then
    lerp gapMid gapLate (clamp01 ((timeSinceGrace - earlyRampMs) / (midRampMs - earlyRampMs)))
  else
    lerp gapLate gapFloor (clamp01 ((timeSinceGrace - midRampMs) / 35000))

/-- `GameEngine.updateSpawning(deltaTime)` lines 422-465: the grace gate
(elapsed time AND distance) guards the whole body, then the distance-gap
obstacle cadence followed by the tick-counter coin cadence. -/
def updateSpawning (e : Engine) (deltaTime roll : ℚ) : Engine :=
  if e.elapsedTimeMs < 2600 ∨ e.state.distance < 180 then e
  else
    let odsl := e.obstacleDistanceSinceLast + e.gameSpeed * (deltaTime / 16)
    let minGap := jsMax (targetGap e.elapsedTimeMs) 260
    let e1 :=
      if minGap ≤ odsl then
        { spawnObstacle e roll with obstacleDistanceSinceLast := 0 }
      else { e with obstacleDistanceSinceLast := odsl }
    let timer : ℕ := e1.coinSpawnTimer + 1
    if e1.config.coinSpawnRate ≤ (timer : ℚ) then
      { spawnCoin e1 with coinSpawnTimer := 0 }
    else { e1 with coinSpawnTimer := timer }

/-- `GameEngine.updateObstacles()` lines 504-513: advance left by the world
speed, prune those fully off-screen. -/
def updateObstacles (e : Engine) : Engine :=
  let moved := e.obstacles.map (fun o => { o with x := o.x - e.gameSpeed })
  { e with obstacles := moved.filter (fun o => 0 < o.x + o.width) }

/-- `GameEngine.updateCoins()` lines 515-526: advance non-collected coins,
prune off-screen or collected ones. -/
def updateCoins (e : Engine) : Engine :=
  let moved := e.coins.map (fun c => if c.collected then c else { c with x := c.x - e.gameSpeed })
  { e with coins := moved.filter (fun c => 0 < c.x + c.width && !c.collected) }

/-- A movable rectangle, for the AABB test. -/
structure Rect where
  x : ℚ
  y : ℚ
  width : ℚ
  height : ℚ
  deriving DecidableEq, Repr

/-- `GameEngine.isColliding` lines 554-564: strict AABB overlap. -/
def isColliding (r1 r2 : Rect) : Bool :=
  r1.x < r2.x + r2.width && r2.x < r1.x + r1.width &&
  r1.y < r2.y + r2.height && r2.y < r1.y + r1.height

/-- The player's full rectangle as passed to `isColliding`. -/
def playerRect (p : Player) : Rect :=
  { x := p.x, y := p.y, width := p.width, height := p.height }

/-- The inset obstacle hitbox of `checkCollisions` lines 531-536
(10% inset horizontally, 5% from the top, 90% of the height). -/
def obstacleHitbox (o : Obstacle) : Rect :=
  { x := o.x + o.width * 0.1, y := o.y + o.height * 0.05
    width := o.width * 0.8, height := o.height * 0.9 }

/-- A coin's full rectangle (no inset). -/
def coinRect (c : Coin) : Rect :=
  { x := c.x, y := c.y, width := c.width, height := c.height }

/-- `GameEngine.gameOver()` lines 566-573 (event callback absent in the
pure model; visual-effect timers out of scope). -/
def gameOver (e : Engine) : Engine :=
  { e with state := { e.state with isGameOver := true, isPlaying := false } }

/-- The coin-collection pass of `checkCollisions` lines 543-551: each
uncollected overlapping coin is marked collected and counted. -/
def collectCoins (p : Player) : List Coin → List Coin × ℕ
  | [] => ([], 0)
  | c :: cs =>
    let rest := collectCoins p cs
    if !c.collected && isColliding (playerRect p) (coinRect c) then
      ({ c with collected := true } :: rest.1, rest.2 + 1)
    else (c :: rest.1, rest.2)

/-- `GameEngine.checkCollisions()` lines 528-552: the first obstacle whose
inset hitbox overlaps the player ends the run and short-circuits the rest
of the collision pass (including coin collection); otherwise overlapping
coins are collected. -/
def checkCollisions (e : Engine) : Engine :=
  match e.obstacles.find? (fun o => isColliding (playerRect e.player) (obstacleHitbox o)) with
  | some _ => gameOver e
  | none =>
    let r := collectCoins e.player e.coins
    { e with coins := r.1, state := { e.state with coins := e.state.coins + r.2 } }

/-- The score/difficulty tail of `update` lines 363-371: distance and score
update, then the post-5000 speed ramp. -/
def scoreSpeedStep (e : Engine) (deltaTime : ℚ) : Engine :=
  let d := e.state.distance + e.gameSpeed * (deltaTime / 16)
  let score := ⌊d / 10⌋ + (e.state.coins : ℤ) * 10
  let gs :=
    if 5000 ≤ d then
      let ramp := jsMin 1 ((d - 5000) / 3000)
      let rampFactor := 0.35 + 0.65 * ramp
      e.gameSpeed + e.config.speedIncrement * rampFactor
    else e.gameSpeed
  { e with
    state := { e.state with distance := d, score := score, speed := gs }
    gameSpeed := gs }

/-- The part of `update` between the elapsed-time bump and the collision
check (lines 346-358): player physics, spawning, entity advance/prune. -/
def midUpdate (e : Engine) (deltaTime roll : ℚ) : Engine :=
  updateCoins (updateObstacles
    (updateSpawning (updatePlayer { e with elapsedTimeMs := e.elapsedTimeMs + deltaTime }
      deltaTime) deltaTime roll))

/-- `GameEngine.update(deltaTime)` lines 343-378: one simulation tick
(`roll` is the `Math.random()` draw consumed if an obstacle spawns;
presentational effect updates at lines 374-377 are out of scope). -/
def update (e : Engine) (deltaTime roll : ℚ) : Engine :=
  if e.state.isPaused || e.state.isGameOver then e
  else scoreSpeedStep (checkCollisions (midUpdate e deltaTime roll)) deltaTime

/-- A run: fold `update` over a list of `(deltaTime, roll)` tick inputs. -/
def runTicks (e : Engine) : List (ℚ × ℚ) → Engine
  | [] => e
  | t :: ts => runTicks (update e t.1 t.2) ts

/-- `GameEngine.getState()` lines 820-822: a value snapshot of the state
(defensive copying is implicit in the pure model). -/
def getState (e : Engine) : GameState := e.state

/-! ## Event-callback model

`GameEngineEvents` (lines 43-46) with possibly-throwing callbacks, used to
examine what the call sites at lines 549 (`onCoinCollected`) and 572
(`onGameOver`) do when a callback throws.  The source wraps neither call in
`try`/`catch`, so the model threads an exception monad through
`checkCollisions`; an `Except.error` result carries the engine state at the
moment of the throw (in JavaScript the mutations made before the throw
persist on the engine object while the exception unwinds out of the tick). -/

/-- Callbacks as in `GameEngineEvents`; a throwing callback returns
`Except.error`. -/
structure GameEngineEvents where
  onCoinCollected : ℚ → ℚ → Except String Unit
  onGameOver : Unit → Except String Unit

/-- `GameEngine.gameOver()` with the callback invocation of line 572:
the state flags are set before the callback runs, so they persist even
when the callback throws. -/
def gameOverWithEvents (ev : GameEngineEvents) (e : Engine) :
    Except (String × Engine) Engine :=
  let e' := { e with state := { e.state with isGameOver := true, isPlaying := false } }
  match ev.onGameOver () with
  | .ok _ => .ok e'
  | .error m => .error (m, e')

/-- The coin-collection loop of lines 544-551 with the callback of line 549:
each collected coin is marked and counted before its callback runs; a throw
aborts the loop, leaving later coins unprocessed. -/
def collectCoinsWithEvents (ev : GameEngineEvents) (p : Player) :
    List Coin → Except (String × List Coin × ℕ) (List Coin × ℕ)
  | [] => .ok ([], 0)
  | c :: cs =>
    if !c.collected && isColliding (playerRect p) (coinRect c) then
      let c' := { c with collected := true }
      match ev.onCoinCollected (c.x + c.width / 2) (c.y + c.height / 2) with
      | .error m => .error (m, c' :: cs, 1)
      | .ok _ =>
        match collectCoinsWithEvents ev p cs with
        | .ok r => .ok (c' :: r.1, r.2 + 1)
        | .error (m, l, n) => .error (m, c' :: l, n + 1)
    else
      match collectCoinsWithEvents ev p cs with
      | .ok r => .ok (c :: r.1, r.2)
      | .error (m, l, n) => .error (m, c :: l, n)

/-- `GameEngine.checkCollisions()` with callback invocations (no
`try`/`catch` anywhere on the path, as in the source). -/
def checkCollisionsWithEvents (ev : GameEngineEvents) (e : Engine) :
    Except (String × Engine) Engine :=
  match e.obstacles.find? (fun o => isColliding (playerRect e.player) (obstacleHitbox o)) with
  | some _ => gameOverWithEvents ev e
  | none =>
    match collectCoinsWithEvents ev e.player e.coins with
    | .ok r => .ok { e with coins := r.1, state := { e.state with coins := e.state.coins + r.2 } }
    | .error (m, l, n) =>
      .error (m, { e with coins := l, state := { e.state with coins := e.state.coins + n } })

/-- `GameEngine.update(deltaTime)` with callbacks: an exception escaping
`checkCollisions` aborts the tick before the distance/score/speed update of
lines 363-371 runs. -/
def updateWithEvents (ev : GameEngineEvents) (e : Engine) (deltaTime roll : ℚ) :
    Except (String × Engine) Engine :=
  if e.state.isPaused || e.state.isGameOver then .ok e
  else
    match checkCollisionsWithEvents ev (midUpdate e deltaTime roll) with
    | .ok e' => .ok (scoreSpeedStep e' deltaTime)
    | .error r => .error r

/-- Callbacks that never throw. -/
def silentEvents : GameEngineEvents where
  onCoinCollected := fun _ _ => .ok ()
  onGameOver := fun _ => .ok ()

/-- Callbacks that always throw. -/
def throwingEvents : GameEngineEvents where
  onCoinCollected := fun _ _ => .error "callback failure"
  onGameOver := fun _ => .error "callback failure"

/-- `true` iff the computation aborted with an exception. -/
def exceptAborted {ε α : Type} : Except ε α → Bool
  | .error _ => true
  | .ok _ => false

/-- The engine state carried by an aborted tick, if any. -/
def errState : Except (String × Engine) Engine → Option Engine
  | .error (_, s) => some s
  | .ok _ => none

/-! ## Concrete engines used to instantiate theorems -/

/-- A freshly started engine on an 800×600 canvas with the default config. -/
def engine0 : Engine := start (mkEngine defaultConfig 800 600)

/-- A running engine whose single obstacle stands on the player: world
speed zero, inside the grace window, mid-run flags set. -/
def collidingEngine : Engine :=
  { mkEngine defaultConfig 800 600 with
    state := { isPlaying := true, isPaused := false, isGameOver := false
               score := 0, coins := 0, distance := 0, speed := 0 }
    gameSpeed := 0
    obstacles := [{ x := 100, y := 500, width := 30, height := 50, id := 0 }] }

/-- Like `collidingEngine` but with world speed 1, so that a completed tick
visibly advances `distance` (used against the callback-exception claim). -/
def collidingEngineMoving : Engine :=
  { mkEngine defaultConfig 800 600 with
    state := { isPlaying := true, isPaused := false, isGameOver := false
               score := 0, coins := 0, distance := 0, speed := 1 }
    gameSpeed := 1
    obstacles := [{ x := 100, y := 500, width := 30, height := 50, id := 0 }] }

/-- A mid-run paused engine with nonzero counters (to watch `start` not
reset them while paused). -/
def pausedEngine : Engine :=
  { mkEngine defaultConfig 800 600 with
    state := { isPlaying := true, isPaused := true, isGameOver := false
               score := 37, coins := 2, distance := 170, speed := 2.5 }
    gameSpeed := 2.5
    elapsedTimeMs := 1200
    coinSpawnTimer := 14 }

/-! ## Frame lemmas

Which fields each per-tick component leaves untouched, read off from the
corresponding method bodies. -/

theorem updatePlayer_frame (e : Engine) (dt : ℚ) :
    (updatePlayer e dt).state = e.state ∧
    (updatePlayer e dt).gameSpeed = e.gameSpeed ∧
    (updatePlayer e dt).config = e.config ∧
    (updatePlayer e dt).obstacles = e.obstacles ∧
    (updatePlayer e dt).coins = e.coins ∧
    (updatePlayer e dt).elapsedTimeMs = e.elapsedTimeMs ∧
    (updatePlayer e dt).canvasWidth = e.canvasWidth ∧
    (updatePlayer e dt).player.groundY = e.player.groundY := by
  unfold updatePlayer
  dsimp only
  split <;> exact ⟨rfl, rfl, rfl, rfl, rfl, rfl, rfl, rfl⟩

theorem updateSpawning_frame (e : Engine) (dt roll : ℚ) :
    (updateSpawning e dt roll).state = e.state ∧
    (updateSpawning e dt roll).gameSpeed = e.gameSpeed ∧
    (updateSpawning e dt roll).config = e.config ∧
    (updateSpawning e dt roll).player = e.player ∧
    (updateSpawning e dt roll).elapsedTimeMs = e.elapsedTimeMs := by
  unfold updateSpawning spawnObstacle spawnCoin
  dsimp only
  repeat' split
  all_goals exact ⟨rfl, rfl, rfl, rfl, rfl⟩

/-- Inside the grace window (elapsed time below 2600 ms or distance below
180) `updateSpawning` is the identity (lines 447-450). -/
theorem updateSpawning_grace (e : Engine) (dt roll : ℚ)
    (h : e.elapsedTimeMs < 2600 ∨ e.state.distance < 180) :
    updateSpawning e dt roll = e := by
  unfold updateSpawning
  exact if_pos h

theorem updateObstacles_frame (e : Engine) :
    (updateObstacles e).state = e.state ∧
    (updateObstacles e).gameSpeed = e.gameSpeed ∧
    (updateObstacles e).config = e.config ∧
    (updateObstacles e).player = e.player ∧
    (updateObstacles e).coins = e.coins ∧
    (updateObstacles e).elapsedTimeMs = e.elapsedTimeMs := by
  unfold updateObstacles
  dsimp only
  exact ⟨rfl, rfl, rfl, rfl, rfl, rfl⟩

theorem updateObstacles_nil (e : Engine) (h : e.obstacles = []) :
    (updateObstacles e).obstacles = [] := by
  unfold updateObstacles
  simp [h]

theorem updateCoins_frame (e : Engine) :
    (updateCoins e).state = e.state ∧
    (updateCoins e).gameSpeed = e.gameSpeed ∧
    (updateCoins e).config = e.config ∧
    (updateCoins e).player = e.player ∧
    (updateCoins e).obstacles = e.obstacles ∧
    (updateCoins e).elapsedTimeMs = e.elapsedTimeMs := by
  unfold updateCoins
  dsimp only
  exact ⟨rfl, rfl, rfl, rfl, rfl, rfl⟩

theorem checkCollisions_frame (e : Engine) :
    (checkCollisions e).state.distance = e.state.distance ∧
    (checkCollisions e).state.speed = e.state.speed ∧
    (checkCollisions e).state.isPaused = e.state.isPaused ∧
    (checkCollisions e).gameSpeed = e.gameSpeed ∧
    (checkCollisions e).config = e.config ∧
    (checkCollisions e).player = e.player ∧
    (checkCollisions e).obstacles = e.obstacles ∧
    (checkCollisions e).elapsedTimeMs = e.elapsedTimeMs := by
  unfold checkCollisions gameOver
  dsimp only
  split <;> exact ⟨rfl, rfl, rfl, rfl, rfl, rfl, rfl, rfl⟩

theorem scoreSpeedStep_frame (e : Engine) (dt : ℚ) :
    (scoreSpeedStep e dt).state.isPlaying = e.state.isPlaying ∧
    (scoreSpeedStep e dt).state.isPaused = e.state.isPaused ∧
    (scoreSpeedStep e dt).state.isGameOver = e.state.isGameOver ∧
    (scoreSpeedStep e dt).state.coins = e.state.coins ∧
    (scoreSpeedStep e dt).player = e.player ∧
    (scoreSpeedStep e dt).obstacles = e.obstacles ∧
    (scoreSpeedStep e dt).coins = e.coins ∧
    (scoreSpeedStep e dt).config = e.config ∧
    (scoreSpeedStep e dt).elapsedTimeMs = e.elapsedTimeMs := by
  unfold scoreSpeedStep
  dsimp only
  exact ⟨rfl, rfl, rfl, rfl, rfl, rfl, rfl, rfl, rfl⟩

/-- The new distance and score assigned by lines 364-365. -/
theorem scoreSpeedStep_distance_score (e : Engine) (dt : ℚ) :
    (scoreSpeedStep e dt).state.distance = e.state.distance + e.gameSpeed * (dt / 16) ∧
    (scoreSpeedStep e dt).state.score =
      ⌊(e.state.distance + e.gameSpeed * (dt / 16)) / 10⌋ + (e.state.coins : ℤ) * 10 := by
  unfold scoreSpeedStep
  dsimp only
  exact ⟨rfl, rfl⟩

/-- The speed ramp of lines 366-371: unchanged below distance 5000,
incremented by `speedIncrement * (0.35 + 0.65 * min 1 ((d - 5000)/3000))`
at or above it; the engine keeps `state.speed` equal to `gameSpeed`. -/
theorem scoreSpeedStep_speed (e : Engine) (dt : ℚ) :
    (scoreSpeedStep e dt).state.speed = (scoreSpeedStep e dt).gameSpeed ∧
    ((scoreSpeedStep e dt).state.distance < 5000 →
      (scoreSpeedStep e dt).gameSpeed = e.gameSpeed) ∧
    (5000 ≤ (scoreSpeedStep e dt).state.distance →
      (scoreSpeedStep e dt).gameSpeed =
        e.gameSpeed + e.config.speedIncrement *
          (0.35 + 0.65 * jsMin 1 (((scoreSpeedStep e dt).state.distance - 5000) / 3000))) := by
  have hd : (scoreSpeedStep e dt).state.distance = e.state.distance + e.gameSpeed * (dt / 16) :=
    (scoreSpeedStep_distance_score e dt).1
  refine ⟨?_, ?_, ?_⟩
  · unfold scoreSpeedStep
    rfl
  · intro h
    rw [hd] at h
    unfold scoreSpeedStep
    simp only
    rw [if_neg (by exact not_le.mpr h)]
  · intro h
    rw [hd] at h
    conv_lhs => unfold scoreSpeedStep
    simp only
    rw [if_pos h, hd]

/-- A paused or ended tick does nothing (line 344). -/
theorem update_frozen (e : Engine) (dt roll : ℚ)
    (h : (e.state.isPaused || e.state.isGameOver) = true) :
    update e dt roll = e := by
  unfold update
  exact if_pos h

/-- A live tick is the pipeline
elapsed-bump → player → spawning → obstacles → coins → collisions → scoring. -/
theorem update_run (e : Engine) (dt roll : ℚ)
    (h : (e.state.isPaused || e.state.isGameOver) = false) :
    update e dt roll = scoreSpeedStep (checkCollisions (midUpdate e dt roll)) dt := by
  unfold update
  rw [if_neg (by simp [h])]

/-- Fields of the engine entering `updateSpawning` within a live tick. -/
theorem midUpdate_pre_spawning (e : Engine) (dt : ℚ) :
    (updatePlayer { e with elapsedTimeMs := e.elapsedTimeMs + dt } dt).state = e.state ∧
    (updatePlayer { e with elapsedTimeMs := e.elapsedTimeMs + dt } dt).elapsedTimeMs
      = e.elapsedTimeMs + dt ∧
    (updatePlayer { e with elapsedTimeMs := e.elapsedTimeMs + dt } dt).gameSpeed = e.gameSpeed ∧
    (updatePlayer { e with elapsedTimeMs := e.elapsedTimeMs + dt } dt).obstacles = e.obstacles := by
  obtain ⟨h1, h2, _, h4, _, h6, _, _⟩ :=
    updatePlayer_frame { e with elapsedTimeMs := e.elapsedTimeMs + dt } dt
  exact ⟨h1, by rw [h6], h2, h4⟩

theorem midUpdate_frame (e : Engine) (dt roll : ℚ) :
    (midUpdate e dt roll).state = e.state ∧
    (midUpdate e dt roll).gameSpeed = e.gameSpeed ∧
    (midUpdate e dt roll).config = e.config ∧
    (midUpdate e dt roll).elapsedTimeMs = e.elapsedTimeMs + dt := by
  unfold midUpdate
  set e1 := updatePlayer { e with elapsedTimeMs := e.elapsedTimeMs + dt } dt with he1
  obtain ⟨p1, p2, p3, _⟩ := midUpdate_pre_spawning e dt
  obtain ⟨s1, s2, s3, _, s5⟩ := updateSpawning_frame e1 dt roll
  obtain ⟨o1, o2, o3, _, _, o6⟩ := updateObstacles_frame (updateSpawning e1 dt roll)
  obtain ⟨c1, c2, c3, _, _, c6⟩ := updateCoins_frame (updateObstacles (updateSpawning e1 dt roll))
  rw [← he1] at p1 p2 p3
  refine ⟨?_, ?_, ?_, ?_⟩
  · rw [c1, o1, s1, p1]
  · rw [c2, o2, s2, p3]
  · rw [c3, o3, s3]
    have := (updatePlayer_frame { e with elapsedTimeMs := e.elapsedTimeMs + dt } dt).2.2.1
    rw [← he1] at this
    rw [this]
  · rw [c6, o6, s5, p2]

/-- A live tick advances the elapsed-time accumulator by exactly `dt`
(line 346). -/
theorem update_elapsed_run (e : Engine) (dt roll : ℚ)
    (h : (e.state.isPaused || e.state.isGameOver) = false) :
    (update e dt roll).elapsedTimeMs = e.elapsedTimeMs + dt := by
  rw [update_run e dt roll h]
  rw [(scoreSpeedStep_frame _ dt).2.2.2.2.2.2.2.2]
  rw [(checkCollisions_frame _).2.2.2.2.2.2.2]
  exact (midUpdate_frame e dt roll).2.2.2

/-- The elapsed-time accumulator never decreases across a tick with a
non-negative delta. -/
theorem update_elapsed_mono (e : Engine) (dt roll : ℚ) (h : 0 ≤ dt) :
    e.elapsedTimeMs ≤ (update e dt roll).elapsedTimeMs := by
  by_cases hg : (e.state.isPaused || e.state.isGameOver) = true
  · rw [update_frozen e dt roll hg]
  · rw [update_elapsed_run e dt roll (Bool.not_eq_true _ ▸ hg)]
    linarith

/-- If a tick turns an empty obstacle list into a non-empty one, the tick
was live and both grace thresholds held at the spawning check: the bumped
elapsed time was at least 2600 ms and the pre-tick distance at least 180
(lines 447-450 guard every obstacle spawn). -/
theorem update_obstacles_new (e : Engine) (dt roll : ℚ)
    (h0 : e.obstacles = [])
    (h1 : (update e dt roll).obstacles ≠ []) :
    (e.state.isPaused || e.state.isGameOver) = false ∧
    2600 ≤ e.elapsedTimeMs + dt ∧ 180 ≤ e.state.distance := by
  by_cases hg : (e.state.isPaused || e.state.isGameOver) = true
  · exact absurd (by rw [update_frozen e dt roll hg]; exact h0) h1
  · have hgf : (e.state.isPaused || e.state.isGameOver) = false := Bool.not_eq_true _ ▸ hg
    refine ⟨hgf, ?_⟩
    rw [update_run e dt roll hgf] at h1
    set e1 := updatePlayer { e with elapsedTimeMs := e.elapsedTimeMs + dt } dt with he1
    obtain ⟨p1, p2, p3, p4⟩ := midUpdate_pre_spawning e dt
    rw [← he1] at p1 p2 p3 p4
    by_cases hgate : e1.elapsedTimeMs < 2600 ∨ e1.state.distance < 180
    · exfalso
      apply h1
      show (scoreSpeedStep (checkCollisions
        (updateCoins (updateObstacles (updateSpawning e1 dt roll)))) dt).obstacles = []
      rw [updateSpawning_grace e1 dt roll hgate]
      rw [(scoreSpeedStep_frame _ dt).2.2.2.2.2.1]
      rw [(checkCollisions_frame _).2.2.2.2.2.2.1]
      rw [(updateCoins_frame _).2.2.2.2.1]
      exact updateObstacles_nil e1 (by rw [p4, h0])
    · push_neg at hgate
      obtain ⟨ht, hd⟩ := hgate
      rw [p2] at ht
      rw [p1] at hd
      exact ⟨ht, hd⟩

/-- Running a concatenation of tick lists is running them in sequence. -/
theorem runTicks_append (e : Engine) (l1 l2 : List (ℚ × ℚ)) :
    runTicks e (l1 ++ l2) = runTicks (runTicks e l1) l2 := by
  induction l1 generalizing e with
  | nil => rfl
  | cons t ts ih =>
    simp only [List.cons_append, runTicks]
    exact ih (update e t.1 t.2)

theorem runTicks_snoc (e : Engine) (ts : List (ℚ × ℚ)) (t : ℚ × ℚ) :
    runTicks e (ts ++ [t]) = update (runTicks e ts) t.1 t.2 := by
  rw [runTicks_append]
  rfl

/-- `jump` is a no-op once the run has ended (`isPlaying` false). -/
theorem jump_noop_of_not_playing (e : Engine) (h : e.state.isPlaying = false) :
    jump e = e := by
  unfold jump
  rw [if_pos (by simp [h])]

/-! ## The claims -/

/-- **C1.** For every tick executed while the game is running (not paused,
not game over), after the tick's score update the state satisfies
`score = ⌊distance / 10⌋ + coins * 10` exactly, where `distance` has been
incremented that tick by `speed * (deltaTime / 16)`. -/
theorem score_formula_per_tick (e : Engine) (dt roll : ℚ)
    (hp : e.state.isPaused = false) (hg : e.state.isGameOver = false)
    (hs : e.state.speed = e.gameSpeed) :
    (update e dt roll).state.distance = e.state.distance + e.state.speed * (dt / 16) ∧
    (update e dt roll).state.score =
      ⌊(update e dt roll).state.distance / 10⌋ +
        ((update e dt roll).state.coins : ℤ) * 10 := by
  have hgf : (e.state.isPaused || e.state.isGameOver) = false := by rw [hp, hg]; rfl
  rw [update_run e dt roll hgf]
  set em := checkCollisions (midUpdate e dt roll) with hem
  have hd : em.state.distance = e.state.distance := by
    rw [hem, (checkCollisions_frame _).1, (midUpdate_frame e dt roll).1]
  have hgs : em.gameSpeed = e.gameSpeed := by
    rw [hem, (checkCollisions_frame _).2.2.2.1, (midUpdate_frame e dt roll).2.1]
  obtain ⟨hd2, hsc⟩ := scoreSpeedStep_distance_score em dt
  refine ⟨?_, ?_⟩
  · rw [hd2, hd, hgs, hs]
  · rw [hsc, hd2, (scoreSpeedStep_frame em dt).2.2.2.1]

/-- Witness for C1 at a freshly started default engine and a 16 ms tick. -/
theorem score_formula_per_tick_witness :
    (update engine0 16 0).state.distance =
      engine0.state.distance + engine0.state.speed * (16 / 16) ∧
    (update engine0 16 0).state.score =
      ⌊(update engine0 16 0).state.distance / 10⌋ +
        ((update engine0 16 0).state.coins : ℤ) * 10 :=
  score_formula_per_tick engine0 16 0 rfl rfl rfl

/-- **C2, counterexample.** The claim says speed increases by
`speedIncrement` on *every* running tick.  On the very first tick of a
default run the speed does not change at all, although `speedIncrement`
is non-zero (the code only accelerates once `distance ≥ 5000`,
lines 366-370). -/
theorem speed_increment_counterexample :
    (update engine0 16 0).state.speed = engine0.state.speed ∧
    defaultConfig.speedIncrement ≠ 0 := by
  constructor
  · with_unfolding_all rfl
  · norm_num [defaultConfig]

/-- **C2, amended.** While running, the world speed is unchanged by a tick
that ends with `distance < 5000`; a tick ending with `distance ≥ 5000` adds
`speedIncrement * (0.35 + 0.65 * min 1 ((distance - 5000) / 3000))`.
With a non-negative `speedIncrement` the speed is therefore non-decreasing,
but there is no base per-tick growth. -/
theorem speed_ramp_amended (e : Engine) (dt roll : ℚ)
    (hp : e.state.isPaused = false) (hg : e.state.isGameOver = false)
    (hs : e.state.speed = e.gameSpeed) (hinc : 0 ≤ e.config.speedIncrement) :
    ((update e dt roll).state.distance < 5000 →
      (update e dt roll).state.speed = e.state.speed) ∧
    (5000 ≤ (update e dt roll).state.distance →
      (update e dt roll).state.speed = e.state.speed +
        e.config.speedIncrement *
          (0.35 + 0.65 * jsMin 1 (((update e dt roll).state.distance - 5000) / 3000))) ∧
    e.state.speed ≤ (update e dt roll).state.speed := by
  have hgf : (e.state.isPaused || e.state.isGameOver) = false := by rw [hp, hg]; rfl
  rw [update_run e dt roll hgf]
  set em := checkCollisions (midUpdate e dt roll) with hem
  have hgs : em.gameSpeed = e.gameSpeed := by
    rw [hem, (checkCollisions_frame _).2.2.2.1, (midUpdate_frame e dt roll).2.1]
  have hcfg : em.config = e.config := by
    rw [hem, (checkCollisions_frame _).2.2.2.2.1, (midUpdate_frame e dt roll).2.2.1]
  obtain ⟨hss, hlow, hhigh⟩ := scoreSpeedStep_speed em dt
  have h1 : (scoreSpeedStep em dt).state.distance < 5000 →
      (scoreSpeedStep em dt).state.speed = e.state.speed := by
    intro h
    rw [hss, hlow h, hgs, hs]
  have h2 : 5000 ≤ (scoreSpeedStep em dt).state.distance →
      (scoreSpeedStep em dt).state.speed = e.state.speed +
        e.config.speedIncrement *
          (0.35 + 0.65 * jsMin 1 (((scoreSpeedStep em dt).state.distance - 5000) / 3000)) := by
    intro h
    rw [hss, hhigh h, hgs, hs, hcfg]
  refine ⟨h1, h2, ?_⟩
  rcases lt_or_le (scoreSpeedStep em dt).state.distance 5000 with hc | hc
  · exact le_of_eq (h1 hc).symm
  · rw [h2 hc]
    have hmin0 : 0 ≤ jsMin 1 (((scoreSpeedStep em dt).state.distance - 5000) / 3000) := by
      unfold jsMin
      split
      · norm_num
      · exact div_nonneg (by linarith) (by norm_num)
    nlinarith [mul_nonneg hinc (by nlinarith : (0:ℚ) ≤ 0.35 + 0.65 *
        jsMin 1 (((scoreSpeedStep em dt).state.distance - 5000) / 3000))]

/-- Witness for C2's amended theorem at a freshly started default engine. -/
theorem speed_ramp_amended_witness :
    ((update engine0 16 0).state.distance < 5000 →
      (update engine0 16 0).state.speed = engine0.state.speed) ∧
    (5000 ≤ (update engine0 16 0).state.distance →
      (update engine0 16 0).state.speed = engine0.state.speed +
        engine0.config.speedIncrement *
          (0.35 + 0.65 * jsMin 1 (((update engine0 16 0).state.distance - 5000) / 3000))) ∧
    engine0.state.speed ≤ (update engine0 16 0).state.speed :=
  speed_ramp_amended engine0 16 0 rfl rfl rfl (by norm_num [engine0, start, mkEngine, defaultConfig])

set_option maxRecDepth 100000 in
/-- **C3, counterexample.** The claim says the coin cadence is independent
of the obstacle grace gates, so 60 default 16 ms ticks should leave exactly
one coin.  In the code the grace guard at lines 447-450 returns *before*
the coin counter is touched (lines 460-464), and 60 ticks only reach
960 ms < 2600 ms elapsed, so the world holds no coin at all. -/
theorem coin_cadence_counterexample :
    (runTicks engine0 (List.replicate 60 ((16 : ℚ), (0 : ℚ)))).coins = [] := by
  with_unfolding_all rfl

set_option maxRecDepth 400000 in
/-- **C3, amended.** Coin spawning shares the obstacle grace gates
(2600 ms elapsed AND distance 180): the 60-tick coin counter only advances
on gated ticks.  With the default config and 16 ms ticks the gates first
clear on tick 163, so the world first contains exactly 1 coin after tick
163 + 59 = 222, with none on any earlier tick. -/
theorem coin_cadence_amended :
    (runTicks engine0 (List.replicate 221 ((16 : ℚ), (0 : ℚ)))).coins = [] ∧
    (runTicks engine0 (List.replicate 222 ((16 : ℚ), (0 : ℚ)))).coins.length = 1 := by
  constructor
  · with_unfolding_all rfl
  · with_unfolding_all rfl

/-- **C4.** For every run and every config, no obstacle exists in the world
state at any tick before BOTH the elapsed-time grace period (2600 ms) and
the minimum-distance grace threshold (180) from run start have been
cleared: whenever the obstacle list is non-empty, the elapsed time is
already ≥ 2600 ms and some earlier (or current) tick ended with
distance ≥ 180. -/
theorem obstacle_grace_period (cfg : GameConfig) (cw ch : ℚ) (ts : List (ℚ × ℚ))
    (hts : ∀ t ∈ ts, (0 : ℚ) ≤ t.1)
    (hobs : (runTicks (start (mkEngine cfg cw ch)) ts).obstacles ≠ []) :
    2600 ≤ (runTicks (start (mkEngine cfg cw ch)) ts).elapsedTimeMs ∧
    ∃ k ≤ ts.length,
      180 ≤ (runTicks (start (mkEngine cfg cw ch)) (List.take k ts)).state.distance := by
  induction ts using List.reverseRecOn with
  | nil =>
    exact absurd (show (runTicks (start (mkEngine cfg cw ch)) []).obstacles = [] from rfl) hobs
  | append_singleton ts t ih =>
    rw [runTicks_snoc] at hobs ⊢
    have hdt : (0 : ℚ) ≤ t.1 := hts t (List.mem_append_right ts (List.mem_singleton.mpr rfl))
    set s := runTicks (start (mkEngine cfg cw ch)) ts with hsdef
    by_cases h0 : s.obstacles = []
    · obtain ⟨hgf, ht, hd⟩ := update_obstacles_new s t.1 t.2 h0 hobs
      refine ⟨by rw [update_elapsed_run s t.1 t.2 hgf]; exact ht, ts.length, ?_, ?_⟩
      · simp
      · rw [List.take_left]
        exact hd
    · obtain ⟨h26, k, hk, hdist⟩ := ih (fun t' ht' => hts t' (List.mem_append_left _ ht')) h0
      refine ⟨le_trans h26 (update_elapsed_mono s t.1 t.2 hdt), k, ?_, ?_⟩
      · simp only [List.length_append, List.length_singleton]
        omega
      · rw [List.take_append_of_le_length hk]
        exact hdist

/-- Witness trace for C4: a default run whose third state holds an
obstacle (one long delta to cross the time gate, one to build up distance
and the obstacle gap). -/
theorem obstacle_grace_period_witness :
    2600 ≤ (runTicks (start (mkEngine defaultConfig 800 600))
      [((2600 : ℚ), (0 : ℚ)), ((4000 : ℚ), (0 : ℚ))]).elapsedTimeMs ∧
    ∃ k ≤ ([((2600 : ℚ), (0 : ℚ)), ((4000 : ℚ), (0 : ℚ))] : List (ℚ × ℚ)).length,
      180 ≤ (runTicks (start (mkEngine defaultConfig 800 600))
        (List.take k [((2600 : ℚ), (0 : ℚ)), ((4000 : ℚ), (0 : ℚ))])).state.distance := by
  have hlen : (runTicks (start (mkEngine defaultConfig 800 600))
      [((2600 : ℚ), (0 : ℚ)), ((4000 : ℚ), (0 : ℚ))]).obstacles.length = 1 := by
    with_unfolding_all rfl
  refine obstacle_grace_period defaultConfig 800 600 _ ?_ (List.length_pos.mp (by rw [hlen]; norm_num))
  intro t ht
  simp only [List.mem_cons, List.mem_singleton, List.not_mem_nil, or_false] at ht
  rcases ht with rfl | rfl
  · norm_num
  · norm_num

/-- **C5.** When the player overlaps any obstacle's inset hitbox during a
tick's collision check, the run ends immediately: the first matching
obstacle wins and short-circuits all further collision checks that tick
(the coin list and coin count are untouched), the state after the tick has
`isGameOver = true` and `isPlaying = false` (so the very next `getState()`
reports them), and `jump()` called after that is a no-op. -/
theorem obstacle_hit_ends_run (e : Engine) (dt roll : ℚ)
    (hp : e.state.isPaused = false) (hg : e.state.isGameOver = false)
    (hhit : ((midUpdate e dt roll).obstacles.any
      (fun o => isColliding (playerRect (midUpdate e dt roll).player) (obstacleHitbox o)))
        = true) :
    (update e dt roll).state.isGameOver = true ∧
    (update e dt roll).state.isPlaying = false ∧
    (getState (update e dt roll)).isGameOver = true ∧
    (getState (update e dt roll)).isPlaying = false ∧
    (update e dt roll).coins = (midUpdate e dt roll).coins ∧
    (update e dt roll).state.coins = e.state.coins ∧
    jump (update e dt roll) = update e dt roll := by
  have hgf : (e.state.isPaused || e.state.isGameOver) = false := by rw [hp, hg]; rfl
  rw [update_run e dt roll hgf]
  set em := midUpdate e dt roll with hem
  obtain ⟨o, ho, hcol⟩ := List.any_eq_true.mp hhit
  have hfind : (em.obstacles.find?
      (fun o => isColliding (playerRect em.player) (obstacleHitbox o))).isSome :=
    List.find?_isSome.mpr ⟨o, ho, hcol⟩
  obtain ⟨o', hfo⟩ := Option.isSome_iff_exists.mp hfind
  have hcc : checkCollisions em = gameOver em := by
    unfold checkCollisions
    rw [hfo]
  rw [hcc]
  have hplay : (scoreSpeedStep (gameOver em) dt).state.isPlaying = false := by
    rw [(scoreSpeedStep_frame _ dt).1]
    rfl
  have hover : (scoreSpeedStep (gameOver em) dt).state.isGameOver = true := by
    rw [(scoreSpeedStep_frame _ dt).2.2.1]
    rfl
  refine ⟨hover, hplay, hover, hplay, ?_, ?_, jump_noop_of_not_playing _ hplay⟩
  · rw [(scoreSpeedStep_frame _ dt).2.2.2.2.2.2.1]
    rfl
  · rw [(scoreSpeedStep_frame _ dt).2.2.2.1]
    show em.state.coins = e.state.coins
    rw [hem, (midUpdate_frame e dt roll).1]

/-- Witness for C5: a running engine whose only obstacle stands on the
player; after the tick the run is over and `jump` does nothing. -/
theorem obstacle_hit_ends_run_witness :
    (update collidingEngine 0 0).state.isGameOver = true ∧
    (update collidingEngine 0 0).state.isPlaying = false ∧
    (getState (update collidingEngine 0 0)).isGameOver = true ∧
    (getState (update collidingEngine 0 0)).isPlaying = false ∧
    (update collidingEngine 0 0).coins = (midUpdate collidingEngine 0 0).coins ∧
    (update collidingEngine 0 0).state.coins = collidingEngine.state.coins ∧
    jump (update collidingEngine 0 0) = update collidingEngine 0 0 :=
  obstacle_hit_ends_run collidingEngine 0 0 rfl rfl (by with_unfolding_all rfl)

/-- **C6.** `start()`, `jump()` and `togglePause()` called in an invalid
state (start while already playing; togglePause while not playing or after
game over; jump while not playing, paused, game over, or already airborne)
are pure no-ops that leave all game state unchanged; in particular calling
`jump()` twice in the same airborne period changes the player's velocity
only once (`jump ∘ jump = jump`). -/
theorem invalid_ops_are_noops (e : Engine) :
    (e.state.isPlaying = true → start e = e) ∧
    (e.state.isPlaying = false ∨ e.state.isGameOver = true → togglePause e = e) ∧
    (e.state.isPlaying = false ∨ e.state.isPaused = true ∨ e.state.isGameOver = true ∨
        e.player.isJumping = true → jump e = e) ∧
    jump (jump e) = jump e := by
  refine ⟨?_, ?_, ?_, ?_⟩
  · intro h
    unfold start
    rw [if_pos h]
  · intro h
    unfold togglePause
    rcases h with h | h <;> rw [if_pos (by simp [h])]
  · intro h
    unfold jump
    rcases h with h | h | h | h
    · rw [if_pos (by simp [h])]
    · rw [if_pos (by simp [h])]
    · rw [if_pos (by simp [h])]
    · by_cases hg : (!e.state.isPlaying || e.state.isPaused || e.state.isGameOver) = true
      · rw [if_pos hg]
      · rw [if_neg hg, if_pos h]
  · by_cases hg : (!e.state.isPlaying || e.state.isPaused || e.state.isGameOver) = true
    · have h1 : jump e = e := by unfold jump; rw [if_pos hg]
      rw [h1]
      exact h1
    · by_cases hj : e.player.isJumping = true
      · have h1 : jump e = e := by unfold jump; rw [if_neg hg, if_pos hj]
        rw [h1]
        exact h1
      · have h1 : jump e =
            { e with
              player := { e.player with velocityY := e.config.jumpVelocity, isJumping := true }
              jumpHoldActive := true
              jumpHoldTime := 0 } := by
          unfold jump
          rw [if_neg hg, if_neg hj]
        rw [h1]
        unfold jump
        rw [if_neg (by simpa using hg)]
        rw [if_pos rfl]

/-- Witness for C6: a paused mid-run engine (for the start no-op and the
double-jump law) and an idle engine (for the togglePause/jump guards). -/
theorem invalid_ops_are_noops_witness :
    start pausedEngine = pausedEngine ∧
    togglePause (mkEngine defaultConfig 800 600) = mkEngine defaultConfig 800 600 ∧
    jump (mkEngine defaultConfig 800 600) = mkEngine defaultConfig 800 600 ∧
    jump (jump pausedEngine) = jump pausedEngine :=
  ⟨(invalid_ops_are_noops pausedEngine).1 rfl,
   (invalid_ops_are_noops (mkEngine defaultConfig 800 600)).2.1 (Or.inl rfl),
   (invalid_ops_are_noops (mkEngine defaultConfig 800 600)).2.2.1 (Or.inl rfl),
   (invalid_ops_are_noops pausedEngine).2.2.2⟩

/-- The per-run ground invariant used by C7: each tick keeps the player at
or above the ground line. -/
theorem update_ground_inv (e : Engine) (dt roll : ℚ)
    (h : e.player.y ≤ e.player.groundY) :
    (update e dt roll).player.y ≤ (update e dt roll).player.groundY := by
  by_cases hg : (e.state.isPaused || e.state.isGameOver) = true
  · rw [update_frozen e dt roll hg]
    exact h
  · rw [update_run e dt roll (Bool.not_eq_true _ ▸ hg)]
    have hmid : midUpdate e dt roll =
        updateCoins (updateObstacles (updateSpawning
          (updatePlayer { e with elapsedTimeMs := e.elapsedTimeMs + dt } dt) dt roll)) := rfl
    rw [hmid]
    set e1 := updatePlayer { e with elapsedTimeMs := e.elapsedTimeMs + dt } dt with he1
    have hpl : (scoreSpeedStep (checkCollisions
        (updateCoins (updateObstacles (updateSpawning e1 dt roll)))) dt).player
          = e1.player := by
      rw [(scoreSpeedStep_frame _ dt).2.2.2.2.1]
      rw [(checkCollisions_frame _).2.2.2.2.2.1]
      rw [(updateCoins_frame _).2.2.2.1]
      rw [(updateObstacles_frame _).2.2.2.1]
      rw [(updateSpawning_frame _ dt roll).2.2.2.1]
    rw [hpl, he1]
    unfold updatePlayer
    dsimp only
    split
    · exact le_refl _
    · next hlt => exact le_of_lt (not_le.mp hlt)

/-- **C7.** After every per-tick player physics step the player's `y` is at
most `groundY`, and whenever the ground clamp fires (the integrated
position reaches the ground) the vertical velocity is reset to 0 and the
airborne flag cleared; the `y ≤ groundY` invariant holds at the end of
every tick of every run. -/
theorem ground_clamp_invariant :
    (∀ (e : Engine) (dt : ℚ),
      (updatePlayer e dt).player.y ≤ (updatePlayer e dt).player.groundY ∧
      (e.player.groundY ≤ e.player.y + (e.player.velocityY + gravityStep e) →
        (updatePlayer e dt).player.y = e.player.groundY ∧
        (updatePlayer e dt).player.velocityY = 0 ∧
        (updatePlayer e dt).player.isJumping = false)) ∧
    (∀ (cfg : GameConfig) (cw ch : ℚ) (ts : List (ℚ × ℚ)),
      (runTicks (start (mkEngine cfg cw ch)) ts).player.y ≤
        (runTicks (start (mkEngine cfg cw ch)) ts).player.groundY) := by
  constructor
  · intro e dt
    unfold updatePlayer
    dsimp only
    split
    · exact ⟨le_refl _, fun _ => ⟨rfl, rfl, rfl⟩⟩
    · next hlt =>
      exact ⟨le_of_lt (not_le.mp hlt), fun hcl => absurd hcl hlt⟩
  · intro cfg cw ch ts
    have hbase : (start (mkEngine cfg cw ch)).player.y ≤
        (start (mkEngine cfg cw ch)).player.groundY := le_of_eq rfl
    induction ts using List.reverseRecOn with
    | nil => exact hbase
    | append_singleton ts t ih =>
      rw [runTicks_snoc]
      exact update_ground_inv _ t.1 t.2 ih

/-- Witness for C7's clamp implication: one default tick on a standing
player fires the clamp (gravity pushes below the ground line). -/
theorem ground_clamp_invariant_witness :
    (updatePlayer engine0 16).player.y ≤ (updatePlayer engine0 16).player.groundY ∧
    (updatePlayer engine0 16).player.y = engine0.player.groundY ∧
    (updatePlayer engine0 16).player.velocityY = 0 ∧
    (updatePlayer engine0 16).player.isJumping = false :=
  ⟨(ground_clamp_invariant.1 engine0 16).1,
   (ground_clamp_invariant.1 engine0 16).2 (by with_unfolding_all norm_num [engine0, start,
     mkEngine, defaultConfig, gravityStep, holdingJump, maxJumpHoldMs])⟩

/-- **C8, counterexample.** The claim's premises do not match the code:
the default `jumpVelocity` is −13.5 (not −15) and the default `gravity` is
0.65 (not 0.6); moreover the jump-hold mechanic (line 403) applies
`gravity * 0.35` for the first 180 ms after `jump()`, so after one jump at
t = 0 and 10 ticks of 16 ms the velocity is −11.225, not −9. -/
theorem jump_integration_counterexample :
    defaultConfig.jumpVelocity ≠ -15 ∧ defaultConfig.gravity ≠ 0.6 ∧
    (runTicks (jump engine0) (List.replicate 10 ((16 : ℚ), (0 : ℚ)))).player.velocityY ≠ -9 := by
  refine ⟨by norm_num [defaultConfig], by norm_num [defaultConfig], ?_⟩
  have h : (runTicks (jump engine0)
      (List.replicate 10 ((16 : ℚ), (0 : ℚ)))).player.velocityY = -449/40 := by
    with_unfolding_all rfl
  rw [h]
  norm_num

/-- **C8, amended.** With the actual defaults (`jumpVelocity = -13.5`,
`gravity = 0.65`) and the hold-scaled gravity `0.65 * 0.35` in force for
the whole 160 ms (below the 180 ms hold cap), after one `jump()` at t = 0
and 10 ticks of 16 ms the player's velocity equals
`-13.5 + 10 * (0.65 * 0.35) = -11.225` (pre-clamp; the player is still
airborne). -/
theorem jump_integration_amended :
    defaultConfig.jumpVelocity = -13.5 ∧ defaultConfig.gravity = 0.65 ∧
    (runTicks (jump engine0) (List.replicate 10 ((16 : ℚ), (0 : ℚ)))).player.velocityY =
      -13.5 + 10 * (0.65 * 0.35) := by
  refine ⟨rfl, rfl, ?_⟩
  with_unfolding_all rfl

/-- **C9.** The claim says callback exceptions are isolated at the call
site so the tick's state updates complete regardless.  The code has no
`try`/`catch` around `onGameOver`/`onCoinCollected`: with a throwing
`onGameOver` the tick aborts mid-collision-check — the game-over flags set
before the callback persist, but the distance/score update of lines
363-365 never runs (`distance` stays 0 where a completed tick would make
it 1).  With silent callbacks the tick completes and agrees with the pure
model. -/
theorem callback_exception_aborts_tick :
    exceptAborted (updateWithEvents throwingEvents collidingEngineMoving 16 0) = true ∧
    (errState (updateWithEvents throwingEvents collidingEngineMoving 16 0)).map
      (fun s => s.state.isGameOver) = some true ∧
    (errState (updateWithEvents throwingEvents collidingEngineMoving 16 0)).map
      (fun s => s.state.distance) = some 0 ∧
    (update collidingEngineMoving 16 0).state.distance = 1 ∧
    updateWithEvents silentEvents collidingEngineMoving 16 0 =
      .ok (update collidingEngineMoving 16 0) := by
  refine ⟨?_, ?_, ?_, ?_, ?_⟩ <;> with_unfolding_all rfl

/-- **C10.** Calling `start()` while the game is paused (isPlaying true,
isPaused true) is a complete no-op — its guard checks only `isPlaying`, so
no counter, entity list or flag is reset — and the paused run can only be
resumed by `togglePause()`, which simply clears `isPaused`. -/
theorem start_noop_while_paused (e : Engine)
    (hp : e.state.isPlaying = true) (hq : e.state.isPaused = true)
    (hg : e.state.isGameOver = false) :
    start e = e ∧
    togglePause e = { e with state := { e.state with isPaused := false } } := by
  constructor
  · unfold start
    rw [if_pos hp]
  · unfold togglePause
    rw [if_neg (by simp [hp, hg])]
    rw [hq]
    rfl

/-- Witness for C10: the concrete paused mid-run engine. -/
theorem start_noop_while_paused_witness :
    start pausedEngine = pausedEngine ∧
    togglePause pausedEngine =
      { pausedEngine with state := { pausedEngine.state with isPaused := false } } :=
  start_noop_while_paused pausedEngine rfl rfl rfl

end BaseRush
